import Mathlib

/-!
Shallow embedding of the Contoso Payments API core (src/app/main.py).

Amounts are modelled as exact rationals (the spec's "tolerance-free decimal"),
timestamps as naturals supplied by the caller (the code reads the wall clock),
and the nondeterministic id / authorization-code generation as oracle inputs.
The two module-level dicts `payments_db` and `idempotency_cache` become an
explicit `PaymentsState` threaded through each endpoint; `HTTPException`
becomes the error side of `Except`.
-/

namespace Contoso

/-- Mirrors `PaymentStatus` (src/app/main.py lines 25-33). -/
inductive PaymentStatus where
  | pending
  | authorized
  | captured
  | declined
  | failed
  | refunded
  | partially_refunded
  | voided
deriving DecidableEq

/-- The string value of each `PaymentStatus` member (the str-Enum values),
as interpolated into error messages by the handlers. -/
def statusStr : PaymentStatus → String
  | PaymentStatus.pending => "pending"
  | PaymentStatus.authorized => "authorized"
  | PaymentStatus.captured => "captured"
  | PaymentStatus.declined => "declined"
  | PaymentStatus.failed => "failed"
  | PaymentStatus.refunded => "refunded"
  | PaymentStatus.partially_refunded => "partially_refunded"
  | PaymentStatus.voided => "voided"

/-- Mirrors `PaymentMethod` (src/app/main.py lines 35-39). -/
inductive PaymentMethod where
  | credit_card
  | debit_card
  | bank_transfer
  | digital_wallet
deriving DecidableEq

/-- Mirrors `CardDetails` (src/app/main.py lines 41-47). -/
structure CardDetails where
  card_token : String
  last_four : String
  brand : String
  exp_month : Nat
  exp_year : Nat
deriving DecidableEq

/-- Mirrors the `Payment` record (src/app/main.py lines 49-66). -/
structure Payment where
  id : String
  order_id : String
  customer_id : String
  amount : ℚ
  currency : String
  status : PaymentStatus
  payment_method : PaymentMethod
  card_last_four : Option String
  card_brand : Option String
  authorization_code : Option String
  decline_reason : Option String
  refunded_amount : ℚ
  idempotency_key : Option String
  created_at : Nat
  updated_at : Nat
  captured_at : Option Nat
  refunded_at : Option Nat
deriving DecidableEq

/-- Mirrors `PaymentCreate` (src/app/main.py lines 68-75). -/
structure PaymentCreate where
  order_id : String
  customer_id : String
  amount : ℚ
  currency : String
  payment_method : PaymentMethod
  card_details : Option CardDetails
  idempotency_key : Option String
deriving DecidableEq

/-- An `HTTPException` as the handlers raise it: a status code and a detail
string (src/app/main.py raises these on every failure path). -/
inductive Err where
  | http (code : Nat) (detail : String)
deriving DecidableEq

/-- The module-level mutable state: `payments_db` and `idempotency_cache`
(src/app/main.py lines 85-86), as association lists keyed by strings. -/
structure PaymentsState where
  payments_db : List (String × Payment)
  idempotency_cache : List (String × String)
deriving DecidableEq

/-- Dict lookup (`d[k]` / `k in d`), first match in the association list. -/
def lookupKey {α : Type} : List (String × α) → String → Option α
  | [], _ => none
  | (k2, v) :: rest, k => if k2 = k then some v else lookupKey rest k

/-- Dict assignment `d[k] = v`: replace the first binding of `k`, or append. -/
def setKey {α : Type} : List (String × α) → String → α → List (String × α)
  | [], k, v => [(k, v)]
  | (k2, v2) :: rest, k, v =>
      if k2 = k then (k2, v) :: rest else (k2, v2) :: setKey rest k v

/-- Whether `needle` is a prefix of `hay` (character lists). -/
def charsHavePre : List Char → List Char → Bool
  | [], _ => true
  | _ :: _, [] => false
  | a :: as, b :: bs => a == b && charsHavePre as bs

/-- Whether `hay` has `needle` as a contiguous substring (character lists),
the semantics of Python's `needle in hay` on strings. -/
def charsContain : List Char → List Char → Bool
  | [], needle => charsHavePre needle []
  | c :: t, needle => charsHavePre needle (c :: t) || charsContain t needle

/-- Python's `needle in hay` on strings. -/
def strContainsSub (hay needle : String) : Bool :=
  charsContain hay.toList needle.toList

/-- Python's `s.upper()` (ASCII case mapping, which covers the tokens the
gateway inspects). -/
def strUpper (s : String) : String :=
  String.mk (s.toList.map Char.toUpper)

/-- Python's `f"{opt}"` on an Optional value already known to be a string. -/
def optStr : Option String → String
  | some s => s
  | none => "None"

/-- Mirrors `simulate_payment_gateway` (src/app/main.py lines 96-113):
returns `(success, auth_code, decline_reason)`. The generated authorization
code is an oracle input (`generate_auth_code` draws randomness). -/
def simulate_payment_gateway (authCode : String) (amount : ℚ) (card_token : String) :
    Bool × Option String × Option String :=
  if strContainsSub (strUpper card_token) "DECLINE" then
    (false, none, some "Card declined by issuer")
  else if strContainsSub (strUpper card_token) "INSUFFICIENT" then
    (false, none, some "Insufficient funds")
  else if amount > 10000 then
    (false, none, some "Amount exceeds limit")
  else
    (true, some authCode, none)

/-- The 422 rejection pydantic produces before a handler runs when a request
body violates a `Field` constraint (`amount` must be `gt=0`). -/
def validationFailure : Err := Err.http 422 "Input validation failed"

/-- The card token passed to the gateway (src/app/main.py line 183):
the supplied card token, or `"WALLET"` for non-card instruments. -/
def tokenOf (d : PaymentCreate) : String :=
  match d.card_details with
  | some cd => cd.card_token
  | none => "WALLET"

/-- The card-validation guard (src/app/main.py lines 178-180): card-class
method with no card details. -/
def cardMissing (d : PaymentCreate) : Bool :=
  match d.payment_method, d.card_details with
  | PaymentMethod.credit_card, none => true
  | PaymentMethod.debit_card, none => true
  | _, _ => false

/-- Registration of the idempotency key (src/app/main.py lines 203-204);
Python's truthiness check skips `None` and the empty string. -/
def registerKey : List (String × String) → Option String → String → List (String × String)
  | cache, none, _ => cache
  | cache, some k, pid => if k = "" then cache else setKey cache k pid

/-- The `Payment(...)` construction inside `authorize_payment`
(src/app/main.py lines 187-199), given the gateway verdict `g`. -/
def mkAuthPayment (d : PaymentCreate) (newId : String) (now : Nat)
    (g : Bool × Option String × Option String) : Payment :=
  { id := newId
    order_id := d.order_id
    customer_id := d.customer_id
    amount := d.amount
    currency := d.currency
    status := if g.1 then PaymentStatus.authorized else PaymentStatus.declined
    payment_method := d.payment_method
    card_last_four := Option.map CardDetails.last_four d.card_details
    card_brand := Option.map CardDetails.brand d.card_details
    authorization_code := g.2.1
    decline_reason := g.2.2
    refunded_amount := 0
    idempotency_key := d.idempotency_key
    created_at := now
    updated_at := now
    captured_at := none
    refunded_at := none }

/-- The non-idempotent tail of `authorize_payment` (src/app/main.py lines
177-214): card validation, gateway call, record creation, key registration,
then success or a 402. -/
def freshAuthorize (st : PaymentsState) (d : PaymentCreate)
    (newId authCode : String) (now : Nat) : Except Err Payment × PaymentsState :=
  if cardMissing d then
    (Except.error (Err.http 400 "Card details required for card payments"), st)
  else
    let g := simulate_payment_gateway authCode d.amount (tokenOf d)
    let p := mkAuthPayment d newId now g
    let st2 : PaymentsState :=
      ⟨setKey st.payments_db newId p, registerKey st.idempotency_cache d.idempotency_key newId⟩
    if g.1 then (Except.ok p, st2)
    else (Except.error (Err.http 402 ("Payment declined: " ++ optStr g.2.2)), st2)

/-- Mirrors `authorize_payment` (src/app/main.py lines 160-214), with the
pydantic `amount > 0` gate in front. `newId` is the generated payment id and
`authCode` the generated authorization code (oracle inputs); `now` is the
clock. The idempotency check requires a truthy (non-empty) key. -/
def authorize_payment (st : PaymentsState) (d : PaymentCreate)
    (newId authCode : String) (now : Nat) : Except Err Payment × PaymentsState :=
  if d.amount ≤ 0 then (Except.error validationFailure, st)
  else
    match d.idempotency_key with
    | none => freshAuthorize st d newId authCode now
    | some k =>
      if k = "" then freshAuthorize st d newId authCode now
      else
        match lookupKey st.idempotency_cache k with
        | none => freshAuthorize st d newId authCode now
        | some existing_id =>
          match lookupKey st.payments_db existing_id with
          | some p => (Except.ok p, st)
          | none => (Except.error (Err.http 500 "Internal Server Error"), st)

/-- Mirrors `get_payment` (src/app/main.py lines 130-135): read-only. -/
def get_payment (st : PaymentsState) (payment_id : String) : Except Err Payment :=
  match lookupKey st.payments_db payment_id with
  | none => Except.error (Err.http 404 "Payment not found")
  | some p => Except.ok p

/-- The record mutation performed by a successful capture
(src/app/main.py lines 236-238). -/
def capturedRecord (p : Payment) (now : Nat) : Payment :=
  { p with status := PaymentStatus.captured, captured_at := some now, updated_at := now }

/-- The record mutation performed by a successful void
(src/app/main.py lines 261-262). -/
def voidedRecord (p : Payment) (now : Nat) : Payment :=
  { p with status := PaymentStatus.voided, updated_at := now }

/-- Mirrors `capture_payment` (src/app/main.py lines 217-240). -/
def capture_payment (st : PaymentsState) (payment_id : String) (now : Nat) :
    Except Err Payment × PaymentsState :=
  match lookupKey st.payments_db payment_id with
  | none => (Except.error (Err.http 404 "Payment not found"), st)
  | some p =>
    if p.status = PaymentStatus.authorized then
      (Except.ok (capturedRecord p now),
       ⟨setKey st.payments_db payment_id (capturedRecord p now), st.idempotency_cache⟩)
    else
      (Except.error (Err.http 400
        ("Cannot capture payment in " ++ statusStr p.status ++ " status")), st)

/-- Mirrors `void_payment` (src/app/main.py lines 243-264). -/
def void_payment (st : PaymentsState) (payment_id : String) (now : Nat) :
    Except Err Payment × PaymentsState :=
  match lookupKey st.payments_db payment_id with
  | none => (Except.error (Err.http 404 "Payment not found"), st)
  | some p =>
    if p.status = PaymentStatus.authorized then
      (Except.ok (voidedRecord p now),
       ⟨setKey st.payments_db payment_id (voidedRecord p now), st.idempotency_cache⟩)
    else
      (Except.error (Err.http 400
        ("Cannot void payment in " ++ statusStr p.status ++ " status")), st)

/-- The pydantic `gt=0` constraint on `RefundRequest.amount`: true when a
supplied amount violates it (src/app/main.py line 78). -/
def badRefundAmount : Option ℚ → Bool
  | some a => decide (a ≤ 0)
  | none => false

/-- The `refund.amount or (payment.amount - payment.refunded_amount)` default
(src/app/main.py line 285). A supplied amount is truthy here because the
pydantic gate has already barred `amount ≤ 0`. -/
def refundAmt (ramount : Option ℚ) (remaining : ℚ) : ℚ :=
  match ramount with
  | some a => a
  | none => remaining

/-- The record mutation performed by a successful refund
(src/app/main.py lines 293-300). -/
def refundedRecord (p : Payment) (ra : ℚ) (now : Nat) : Payment :=
  { p with
    refunded_amount := p.refunded_amount + ra,
    refunded_at := some now, updated_at := now,
    status := if p.refunded_amount + ra ≥ p.amount
              then PaymentStatus.refunded
              else PaymentStatus.partially_refunded }

/-- Mirrors `refund_payment` (src/app/main.py lines 267-302), with the
pydantic gate on `RefundRequest.amount` (`gt=0` when supplied) in front. -/
def refund_payment (st : PaymentsState) (payment_id : String)
    (ramount : Option ℚ) (now : Nat) : Except Err Payment × PaymentsState :=
  if badRefundAmount ramount then
    (Except.error validationFailure, st)
  else
    match lookupKey st.payments_db payment_id with
    | none => (Except.error (Err.http 404 "Payment not found"), st)
    | some p =>
      if p.status = PaymentStatus.captured ∨ p.status = PaymentStatus.partially_refunded then
        if refundAmt ramount (p.amount - p.refunded_amount) > p.amount - p.refunded_amount then
          (Except.error (Err.http 400 "Refund amount exceeds remaining balance"), st)
        else
          (Except.ok (refundedRecord p (refundAmt ramount (p.amount - p.refunded_amount)) now),
           ⟨setKey st.payments_db payment_id
              (refundedRecord p (refundAmt ramount (p.amount - p.refunded_amount)) now),
            st.idempotency_cache⟩)
      else
        (Except.error (Err.http 400
          ("Cannot refund payment in " ++ statusStr p.status ++ " status")), st)

/-- One inbound request to a mutating endpoint, with its oracle inputs. -/
inductive Op where
  | authorize (d : PaymentCreate) (newId authCode : String) (now : Nat)
  | capture (payment_id : String) (now : Nat)
  | void (payment_id : String) (now : Nat)
  | refund (payment_id : String) (ramount : Option ℚ) (now : Nat)

/-- Dispatch one request against the state. -/
def step (st : PaymentsState) : Op → Except Err Payment × PaymentsState
  | Op.authorize d newId authCode now => authorize_payment st d newId authCode now
  | Op.capture pid now => capture_payment st pid now
  | Op.void pid now => void_payment st pid now
  | Op.refund pid ramount now => refund_payment st pid ramount now

/-- Run a finite sequence of requests, keeping only the final state. -/
def run (st : PaymentsState) : List Op → PaymentsState
  | [] => st
  | op :: rest => run (step st op).2 rest

/-- The state at process start: both dicts empty. -/
def initState : PaymentsState := ⟨[], []⟩

/-- The condition of the idempotency short-circuit (src/app/main.py line 172):
a truthy (non-empty) key that is already in `idempotency_cache`. -/
def keyHit (st : PaymentsState) (d : PaymentCreate) : Bool :=
  match d.idempotency_key with
  | none => false
  | some k => if k = "" then false else (lookupKey st.idempotency_cache k).isSome

/-- How many records of the store carry idempotency key `k`. -/
def countWithKey (k : String) : List (String × Payment) → Nat
  | [] => 0
  | (_, p) :: rest => (if p.idempotency_key = some k then 1 else 0) + countWithKey k rest

/-- The fields of a `Payment` that the spec declares immutable after creation:
everything except `status`, `refunded_amount` and the event timestamps. -/
def immutableFieldsEq (p p2 : Payment) : Prop :=
  p2.id = p.id ∧ p2.order_id = p.order_id ∧ p2.customer_id = p.customer_id ∧
  p2.amount = p.amount ∧ p2.currency = p.currency ∧
  p2.payment_method = p.payment_method ∧ p2.card_last_four = p.card_last_four ∧
  p2.card_brand = p.card_brand ∧ p2.authorization_code = p.authorization_code ∧
  p2.decline_reason = p.decline_reason ∧ p2.idempotency_key = p.idempotency_key ∧
  p2.created_at = p.created_at

/-- The frame condition for an operation outcome `r` targeting `pid`: the
idempotency index is untouched, every other record is untouched, and the
targeted record keeps all its immutable fields. -/
def frameOk (st : PaymentsState) (pid : String)
    (r : Except Err Payment × PaymentsState) : Prop :=
  r.2.idempotency_cache = st.idempotency_cache ∧
  (∀ pid2, pid2 ≠ pid → lookupKey r.2.payments_db pid2 = lookupKey st.payments_db pid2) ∧
  (∀ p, lookupKey st.payments_db pid = some p →
    ∃ p2, lookupKey r.2.payments_db pid = some p2 ∧ immutableFieldsEq p p2)

/-- Invariant I2 of the spec: every stored record satisfies
`0 ≤ refunded_amount ≤ amount`. -/
def InvI2 (st : PaymentsState) : Prop :=
  ∀ pid p, lookupKey st.payments_db pid = some p →
    0 ≤ p.refunded_amount ∧ p.refunded_amount ≤ p.amount

/-- A wallet payment request (no card details) for concrete scenarios. -/
def walletCreate (amount : ℚ) (key : Option String) : PaymentCreate :=
  { order_id := "ORD-1", customer_id := "CUST-1", amount := amount,
    currency := "USD", payment_method := PaymentMethod.digital_wallet,
    card_details := none, idempotency_key := key }

/-- The `"DECLINE-TEST"` card instrument of the spec's end-to-end scenario. -/
def declineCard : CardDetails :=
  { card_token := "DECLINE-TEST", last_four := "0000", brand := "visa",
    exp_month := 1, exp_year := 2030 }

/-- A card payment request carrying the declining instrument. -/
def declineCreate (amount : ℚ) (key : Option String) : PaymentCreate :=
  { order_id := "ORD-2", customer_id := "CUST-2", amount := amount,
    currency := "USD", payment_method := PaymentMethod.credit_card,
    card_details := some declineCard, idempotency_key := key }

/-- The state after authorize(100, wallet), capture, refund(30), refund(70)
on payment `"PAY-1"`: the repeated-partial-refund scenario of the spec. -/
def c4State : PaymentsState :=
  run initState
    [Op.authorize (walletCreate 100 none) "PAY-1" "AUTH1" 0,
     Op.capture "PAY-1" 1,
     Op.refund "PAY-1" (some 30) 2,
     Op.refund "PAY-1" (some 70) 3]

/-- The state after a declined authorization carrying idempotency key
`"K1"`: the declined record is persisted and the key registered. -/
def c5State : PaymentsState :=
  (authorize_payment initState (declineCreate 50 (some "K1")) "PAY-D" "AC" 0).2

/-- The intermediate state of the repeated-partial-refund scenario, after
refund(30) but before refund(70). -/
def c4Mid : PaymentsState :=
  run initState
    [Op.authorize (walletCreate 100 none) "PAY-1" "AUTH1" 0,
     Op.capture "PAY-1" 1,
     Op.refund "PAY-1" (some 30) 2]

/-- A captured payment of amount 100 with nothing refunded yet. -/
def capturedSample : Payment :=
  { id := "PAY-1", order_id := "ORD-1", customer_id := "CUST-1", amount := 100,
    currency := "USD", status := PaymentStatus.captured,
    payment_method := PaymentMethod.digital_wallet, card_last_four := none,
    card_brand := none, authorization_code := some "AUTH1", decline_reason := none,
    refunded_amount := 0, idempotency_key := some "K1", created_at := 0,
    updated_at := 1, captured_at := some 1, refunded_at := none }

/-- An authorized payment of amount 50, not yet captured. -/
def authorizedSample : Payment :=
  { id := "PAY-2", order_id := "ORD-2", customer_id := "CUST-2", amount := 50,
    currency := "USD", status := PaymentStatus.authorized,
    payment_method := PaymentMethod.digital_wallet, card_last_four := none,
    card_brand := none, authorization_code := some "AUTH2", decline_reason := none,
    refunded_amount := 0, idempotency_key := none, created_at := 0,
    updated_at := 0, captured_at := none, refunded_at := none }

/-- A store holding one captured and one authorized payment, with the
captured one indexed under idempotency key `"K1"`. -/
def sampleState : PaymentsState :=
  ⟨[("PAY-1", capturedSample), ("PAY-2", authorizedSample)], [("K1", "PAY-1")]⟩

/-- The record produced by refund(30) on `capturedSample` at time 7. -/
def c3Refunded : Payment :=
  refundedRecord capturedSample
    (refundAmt (some 30) (capturedSample.amount - capturedSample.refunded_amount)) 7

/-- The store after that refund. -/
def c3After : PaymentsState :=
  ⟨setKey sampleState.payments_db "PAY-1" c3Refunded, sampleState.idempotency_cache⟩

/-- The record created by a successful wallet authorization of 50. -/
def c5Ok : Payment := mkAuthPayment (walletCreate 50 none) "PAY-W" 3 (true, some "AC", none)

/-- The store holding only that record. -/
def c5OkState : PaymentsState := ⟨setKey initState.payments_db "PAY-W" c5Ok, []⟩

/-- A card payment request that supplies no card details. -/
def cardNoDetails : PaymentCreate :=
  { order_id := "ORD-3", customer_id := "CUST-3", amount := 20, currency := "USD",
    payment_method := PaymentMethod.credit_card, card_details := none,
    idempotency_key := none }

/-- A card instrument whose token triggers no gateway rule. -/
def cleanCard : CardDetails :=
  { card_token := "TOK-99", last_four := "1111", brand := "visa",
    exp_month := 2, exp_year := 2031 }

/-- A clean-instrument card request whose amount exceeds the gateway limit. -/
def bigCleanCreate : PaymentCreate :=
  { order_id := "ORD-4", customer_id := "CUST-4", amount := 20000, currency := "USD",
    payment_method := PaymentMethod.credit_card, card_details := some cleanCard,
    idempotency_key := none }

instance {ε α : Type} [DecidableEq ε] [DecidableEq α] : DecidableEq (Except ε α)
  | Except.ok a, Except.ok b =>
      if h : a = b then isTrue (by rw [h]) else isFalse (by simp [h])
  | Except.ok _, Except.error _ => isFalse (by simp)
  | Except.error _, Except.ok _ => isFalse (by simp)
  | Except.error e, Except.error f =>
      if h : e = f then isTrue (by rw [h]) else isFalse (by simp [h])

/-! ## General lemmas about the store primitives -/

theorem lookup_setKey_self {α : Type} (db : List (String × α)) (k : String) (v : α) :
    lookupKey (setKey db k v) k = some v := by
  induction db with
  | nil => simp [setKey, lookupKey]
  | cons kv rest ih =>
    obtain ⟨k2, v2⟩ := kv
    by_cases h : k2 = k
    · simp [setKey, h, lookupKey]
    · simp [setKey, h, lookupKey, ih]

theorem lookup_setKey_ne {α : Type} (db : List (String × α)) (k j : String) (v : α)
    (h : j ≠ k) : lookupKey (setKey db k v) j = lookupKey db j := by
  induction db with
  | nil =>
    simp only [setKey, lookupKey]
    rw [if_neg (fun hh => h hh.symm)]
  | cons kv rest ih =>
    obtain ⟨k2, v2⟩ := kv
    by_cases h2 : k2 = k
    · subst h2
      simp only [setKey, if_pos rfl, lookupKey]
      rw [if_neg (fun hh => h hh.symm), if_neg (fun hh => h hh.symm)]
    · simp only [setKey, if_neg h2, lookupKey]
      by_cases h3 : k2 = j
      · rw [if_pos h3, if_pos h3]
      · rw [if_neg h3, if_neg h3, ih]

theorem lookup_setKey_cases {α : Type} (db : List (String × α)) (k j : String) (v : α)
    (w : α) (h : lookupKey (setKey db k v) j = some w) :
    (j = k ∧ w = v) ∨ lookupKey db j = some w := by
  by_cases hjk : j = k
  · subst hjk
    rw [lookup_setKey_self] at h
    exact Or.inl ⟨rfl, (Option.some.inj h).symm⟩
  · rw [lookup_setKey_ne _ _ _ _ hjk] at h
    exact Or.inr h

theorem countWithKey_setKey_le (k : String) (db : List (String × Payment))
    (i : String) (p : Payment) :
    countWithKey k (setKey db i p) ≤
      countWithKey k db + (if p.idempotency_key = some k then 1 else 0) := by
  induction db with
  | nil => simp [setKey, countWithKey]
  | cons kv rest ih =>
    obtain ⟨k2, v2⟩ := kv
    by_cases h : k2 = i
    · simp only [setKey, if_pos h, countWithKey]
      omega
    · simp only [setKey, if_neg h, countWithKey]
      omega

theorem countWithKey_setKey_same (k : String) (db : List (String × Payment))
    (i : String) (p p2 : Payment) (hl : lookupKey db i = some p)
    (hk : p2.idempotency_key = p.idempotency_key) :
    countWithKey k (setKey db i p2) = countWithKey k db := by
  induction db with
  | nil => simp [lookupKey] at hl
  | cons kv rest ih =>
    obtain ⟨k2, v2⟩ := kv
    by_cases h : k2 = i
    · simp only [lookupKey, if_pos h] at hl
      obtain rfl : v2 = p := Option.some.inj hl
      simp only [setKey, if_pos h, countWithKey, hk]
    · simp only [lookupKey, if_neg h] at hl
      simp only [setKey, if_neg h, countWithKey, ih hl]

/-! ## Shape lemmas for the endpoints -/

theorem gateway_fail_shape (authCode : String) (amount : ℚ) (tok : String)
    (h : (simulate_payment_gateway authCode amount tok).1 = false) :
    ∃ r, simulate_payment_gateway authCode amount tok = (false, none, some r) := by
  unfold simulate_payment_gateway at h ⊢
  by_cases h1 : strContainsSub (strUpper tok) "DECLINE" = true
  · exact ⟨_, by rw [if_pos h1]⟩
  · by_cases h2 : strContainsSub (strUpper tok) "INSUFFICIENT" = true
    · exact ⟨_, by rw [if_neg h1, if_pos h2]⟩
    · by_cases h3 : amount > 10000
      · exact ⟨_, by rw [if_neg h1, if_neg h2, if_pos h3]⟩
      · rw [if_neg h1, if_neg h2, if_neg h3] at h
        simp at h

theorem gateway_ok_shape (authCode : String) (amount : ℚ) (tok : String)
    (h : (simulate_payment_gateway authCode amount tok).1 = true) :
    simulate_payment_gateway authCode amount tok = (true, some authCode, none) := by
  unfold simulate_payment_gateway at h ⊢
  by_cases h1 : strContainsSub (strUpper tok) "DECLINE" = true
  · rw [if_pos h1] at h; simp at h
  · by_cases h2 : strContainsSub (strUpper tok) "INSUFFICIENT" = true
    · rw [if_neg h1, if_pos h2] at h; simp at h
    · by_cases h3 : amount > 10000
      · rw [if_neg h1, if_neg h2, if_pos h3] at h; simp at h
      · rw [if_neg h1, if_neg h2, if_neg h3]

theorem authorize_miss (st : PaymentsState) (d : PaymentCreate)
    (newId authCode : String) (now : Nat)
    (hmiss : keyHit st d = false) (hamt : ¬ d.amount ≤ 0) :
    authorize_payment st d newId authCode now = freshAuthorize st d newId authCode now := by
  unfold authorize_payment
  rw [if_neg hamt]
  unfold keyHit at hmiss
  split
  · rfl
  · next k heq =>
    simp only [heq] at hmiss
    by_cases hk : k = ""
    · rw [if_pos hk]
    · rw [if_neg hk] at hmiss ⊢
      cases hl : lookupKey st.idempotency_cache k with
      | none => rfl
      | some eid => rw [hl] at hmiss; simp at hmiss

theorem fresh_ok_shape (st : PaymentsState) (d : PaymentCreate)
    (newId authCode : String) (now : Nat)
    (hcard : cardMissing d = false)
    (hsucc : (simulate_payment_gateway authCode d.amount (tokenOf d)).1 = true) :
    freshAuthorize st d newId authCode now =
      (Except.ok (mkAuthPayment d newId now (true, some authCode, none)),
       ⟨setKey st.payments_db newId (mkAuthPayment d newId now (true, some authCode, none)),
        registerKey st.idempotency_cache d.idempotency_key newId⟩) := by
  have hg := gateway_ok_shape authCode d.amount (tokenOf d) hsucc
  unfold freshAuthorize
  rw [hg]
  simp [hcard]

theorem fresh_fail_shape (st : PaymentsState) (d : PaymentCreate)
    (newId authCode : String) (now : Nat) (r : String)
    (hcard : cardMissing d = false)
    (hg : simulate_payment_gateway authCode d.amount (tokenOf d) = (false, none, some r)) :
    freshAuthorize st d newId authCode now =
      (Except.error (Err.http 402 ("Payment declined: " ++ r)),
       ⟨setKey st.payments_db newId (mkAuthPayment d newId now (false, none, some r)),
        registerKey st.idempotency_cache d.idempotency_key newId⟩) := by
  unfold freshAuthorize
  rw [hg]
  simp [hcard, optStr]

theorem refund_ok_inv (st : PaymentsState) (pid : String) (ramount : Option ℚ)
    (now : Nat) (p2 : Payment) (st2 : PaymentsState)
    (h : refund_payment st pid ramount now = (Except.ok p2, st2)) :
    ∃ p, lookupKey st.payments_db pid = some p ∧
      (p.status = PaymentStatus.captured ∨ p.status = PaymentStatus.partially_refunded) ∧
      badRefundAmount ramount = false ∧
      refundAmt ramount (p.amount - p.refunded_amount) ≤ p.amount - p.refunded_amount ∧
      p2 = refundedRecord p (refundAmt ramount (p.amount - p.refunded_amount)) now ∧
      st2 = ⟨setKey st.payments_db pid p2, st.idempotency_cache⟩ := by
  unfold refund_payment at h
  split at h
  · simp at h
  · next hbad =>
    split at h
    · simp at h
    · next p hp =>
      split at h
      · next hst =>
        split at h
        · simp at h
        · next hnotover =>
          have h1 := congrArg Prod.fst h
          have h2 := congrArg Prod.snd h
          simp only at h1 h2
          obtain rfl : refundedRecord p (refundAmt ramount (p.amount - p.refunded_amount)) now = p2 :=
            Except.ok.inj h1
          exact ⟨p, hp, hst, by simpa using hbad, not_lt.1 hnotover, rfl, h2.symm⟩
      · simp at h

theorem refundAmt_nonneg (ramount : Option ℚ) (rem : ℚ)
    (hbad : badRefundAmount ramount = false) (hrem : 0 ≤ rem) :
    0 ≤ refundAmt ramount rem := by
  cases ramount with
  | none => exact hrem
  | some a =>
    simp only [badRefundAmount, decide_eq_false_iff_not, not_le] at hbad
    exact le_of_lt hbad

theorem authorize_state_cases (st : PaymentsState) (d : PaymentCreate)
    (newId authCode : String) (now : Nat) :
    (authorize_payment st d newId authCode now).2 = st ∨
    (keyHit st d = false ∧ ¬ d.amount ≤ 0 ∧ cardMissing d = false ∧
     (authorize_payment st d newId authCode now).2 =
       ⟨setKey st.payments_db newId
          (mkAuthPayment d newId now (simulate_payment_gateway authCode d.amount (tokenOf d))),
        registerKey st.idempotency_cache d.idempotency_key newId⟩) := by
  by_cases hamt : d.amount ≤ 0
  · left
    unfold authorize_payment
    rw [if_pos hamt]
  by_cases hmiss : keyHit st d = false
  · rw [authorize_miss st d newId authCode now hmiss hamt]
    unfold freshAuthorize
    by_cases hcard : cardMissing d = true
    · left; rw [if_pos hcard]
    · right
      refine ⟨hmiss, hamt, by simpa using hcard, ?_⟩
      rw [if_neg hcard]
      by_cases hg : (simulate_payment_gateway authCode d.amount (tokenOf d)).1 = true
      · rw [if_pos hg]
      · rw [if_neg hg]
  · left
    unfold keyHit at hmiss
    unfold authorize_payment
    rw [if_neg hamt]
    split
    · next heq =>
      simp only [heq] at hmiss
      exact absurd trivial hmiss
    · next k heq =>
      simp only [heq] at hmiss
      by_cases hk : k = ""
      · rw [if_pos hk] at hmiss; simp at hmiss
      · rw [if_neg hk] at hmiss ⊢
        split
        · next hl => rw [hl] at hmiss; simp at hmiss
        · next eid hl =>
          split
          · rfl
          · rfl

theorem capture_state_cases (st : PaymentsState) (pid : String) (now : Nat) :
    (capture_payment st pid now).2 = st ∨
    ∃ p, lookupKey st.payments_db pid = some p ∧ p.status = PaymentStatus.authorized ∧
      (capture_payment st pid now).2 =
        ⟨setKey st.payments_db pid (capturedRecord p now), st.idempotency_cache⟩ := by
  unfold capture_payment
  split
  · left; rfl
  · next p hl =>
    by_cases hs : p.status = PaymentStatus.authorized
    · right
      exact ⟨p, hl, hs, by rw [if_pos hs]⟩
    · left; rw [if_neg hs]

theorem void_state_cases (st : PaymentsState) (pid : String) (now : Nat) :
    (void_payment st pid now).2 = st ∨
    ∃ p, lookupKey st.payments_db pid = some p ∧ p.status = PaymentStatus.authorized ∧
      (void_payment st pid now).2 =
        ⟨setKey st.payments_db pid (voidedRecord p now), st.idempotency_cache⟩ := by
  unfold void_payment
  split
  · left; rfl
  · next p hl =>
    by_cases hs : p.status = PaymentStatus.authorized
    · right
      exact ⟨p, hl, hs, by rw [if_pos hs]⟩
    · left; rw [if_neg hs]

theorem refund_state_cases (st : PaymentsState) (pid : String) (ramount : Option ℚ)
    (now : Nat) :
    (refund_payment st pid ramount now).2 = st ∨
    ∃ p, lookupKey st.payments_db pid = some p ∧
      badRefundAmount ramount = false ∧
      refundAmt ramount (p.amount - p.refunded_amount) ≤ p.amount - p.refunded_amount ∧
      (refund_payment st pid ramount now).2 =
        ⟨setKey st.payments_db pid
           (refundedRecord p (refundAmt ramount (p.amount - p.refunded_amount)) now),
         st.idempotency_cache⟩ := by
  unfold refund_payment
  by_cases hbad : badRefundAmount ramount = true
  · left; rw [if_pos hbad]
  rw [if_neg hbad]
  split
  · left; rfl
  · next p hl =>
    by_cases hs : p.status = PaymentStatus.captured ∨ p.status = PaymentStatus.partially_refunded
    · by_cases hover : refundAmt ramount (p.amount - p.refunded_amount) > p.amount - p.refunded_amount
      · left; rw [if_pos hs, if_pos hover]
      · right
        refine ⟨p, hl, by simpa using hbad, not_lt.1 hover, ?_⟩
        rw [if_pos hs, if_neg hover]
    · left; rw [if_neg hs]

theorem immutableFieldsEq_refl (p : Payment) : immutableFieldsEq p p := by
  simp [immutableFieldsEq]

theorem frameOk_of_same (st : PaymentsState) (pid : String)
    (r : Except Err Payment × PaymentsState) (h : r.2 = st) : frameOk st pid r := by
  refine ⟨by rw [h], fun pid2 _ => by rw [h], fun p hp => ⟨p, by rw [h]; exact hp, ?_⟩⟩
  exact immutableFieldsEq_refl p

theorem frameOk_of_set (st : PaymentsState) (pid : String) (p p2 : Payment)
    (r : Except Err Payment × PaymentsState)
    (hp : lookupKey st.payments_db pid = some p)
    (him : immutableFieldsEq p p2)
    (h : r.2 = ⟨setKey st.payments_db pid p2, st.idempotency_cache⟩) : frameOk st pid r := by
  refine ⟨by rw [h], fun pid2 hne => by rw [h]; exact lookup_setKey_ne _ _ _ _ hne, ?_⟩
  intro q hq
  obtain rfl : p = q := Option.some.inj (hp.symm.trans hq)
  exact ⟨p2, by rw [h]; exact lookup_setKey_self _ _ _, him⟩

/-! ## Invariant I2 along any trace -/

theorem invI2_step (st : PaymentsState) (op : Op) (h : InvI2 st) :
    InvI2 (step st op).2 := by
  cases op with
  | authorize d newId authCode now =>
    rcases authorize_state_cases st d newId authCode now with hsame | ⟨_, hamt, _, hset⟩
    · intro pid2 q hq
      rw [show (step st (Op.authorize d newId authCode now)).2 = st from hsame] at hq
      exact h pid2 q hq
    · intro pid2 q hq
      rw [show (step st (Op.authorize d newId authCode now)).2 = _ from hset] at hq
      rcases lookup_setKey_cases _ _ _ _ _ hq with ⟨_, rfl⟩ | hold
      · exact ⟨le_refl 0, le_of_lt (not_le.1 hamt)⟩
      · exact h pid2 q hold
  | capture pid now =>
    rcases capture_state_cases st pid now with hsame | ⟨p, hp, _, hset⟩
    · intro pid2 q hq
      rw [show (step st (Op.capture pid now)).2 = st from hsame] at hq
      exact h pid2 q hq
    · intro pid2 q hq
      rw [show (step st (Op.capture pid now)).2 = _ from hset] at hq
      rcases lookup_setKey_cases _ _ _ _ _ hq with ⟨_, rfl⟩ | hold
      · exact h pid p hp
      · exact h pid2 q hold
  | void pid now =>
    rcases void_state_cases st pid now with hsame | ⟨p, hp, _, hset⟩
    · intro pid2 q hq
      rw [show (step st (Op.void pid now)).2 = st from hsame] at hq
      exact h pid2 q hq
    · intro pid2 q hq
      rw [show (step st (Op.void pid now)).2 = _ from hset] at hq
      rcases lookup_setKey_cases _ _ _ _ _ hq with ⟨_, rfl⟩ | hold
      · exact h pid p hp
      · exact h pid2 q hold
  | refund pid ramount now =>
    rcases refund_state_cases st pid ramount now with hsame | ⟨p, hp, hbad, hle, hset⟩
    · intro pid2 q hq
      rw [show (step st (Op.refund pid ramount now)).2 = st from hsame] at hq
      exact h pid2 q hq
    · intro pid2 q hq
      rw [show (step st (Op.refund pid ramount now)).2 = _ from hset] at hq
      rcases lookup_setKey_cases _ _ _ _ _ hq with ⟨_, rfl⟩ | hold
      · obtain ⟨h0, hup⟩ := h pid p hp
        have hra := refundAmt_nonneg ramount (p.amount - p.refunded_amount) hbad (by linarith)
        constructor
        · show (0 : ℚ) ≤ p.refunded_amount + refundAmt ramount (p.amount - p.refunded_amount)
          linarith
        · show p.refunded_amount + refundAmt ramount (p.amount - p.refunded_amount) ≤ p.amount
          linarith
      · exact h pid2 q hold

theorem invI2_run (ops : List Op) (st : PaymentsState) (h : InvI2 st) :
    InvI2 (run st ops) := by
  induction ops generalizing st with
  | nil => exact h
  | cons op rest ih => exact ih (step st op).2 (invI2_step st op h)

/-! ## Idempotency-key uniqueness along any trace -/

/-- The inductive invariant behind I4 for a fixed non-empty key `k`: when `k`
is not in the index, no stored record carries it, and at most one record
ever carries it. -/
def KeyInv (k : String) (st : PaymentsState) : Prop :=
  (lookupKey st.idempotency_cache k = none → countWithKey k st.payments_db = 0) ∧
  countWithKey k st.payments_db ≤ 1

theorem KeyInv_mk (k : String) (db : List (String × Payment))
    (cache : List (String × String))
    (h1 : lookupKey cache k = none → countWithKey k db = 0)
    (h2 : countWithKey k db ≤ 1) : KeyInv k ⟨db, cache⟩ := ⟨h1, h2⟩

theorem keyHit_false_lookup (st : PaymentsState) (d : PaymentCreate) (k : String)
    (hmiss : keyHit st d = false) (hdk : d.idempotency_key = some k) (hk : k ≠ "") :
    lookupKey st.idempotency_cache k = none := by
  unfold keyHit at hmiss
  simp only [hdk] at hmiss
  rw [if_neg hk] at hmiss
  cases hli : lookupKey st.idempotency_cache k with
  | none => rfl
  | some eid => rw [hli] at hmiss; simp at hmiss

theorem lookup_registerKey_ne (cache : List (String × String)) (key : Option String)
    (pid k : String) (h : key ≠ some k) :
    lookupKey (registerKey cache key pid) k = lookupKey cache k := by
  cases key with
  | none => rfl
  | some k2 =>
    by_cases hk2 : k2 = ""
    · simp only [registerKey]
      rw [if_pos hk2]
    · simp only [registerKey]
      rw [if_neg hk2]
      refine lookup_setKey_ne _ _ _ _ ?_
      intro hkk
      exact h (by rw [hkk])

theorem keyInv_step (k : String) (hk : k ≠ "") (st : PaymentsState) (op : Op)
    (h : KeyInv k st) : KeyInv k (step st op).2 := by
  obtain ⟨hnone, hle⟩ := h
  cases op with
  | authorize d newId authCode now =>
    rcases authorize_state_cases st d newId authCode now with hsame | ⟨hmiss, _, _, hset⟩
    · rw [show (step st (Op.authorize d newId authCode now)).2 = st from hsame]
      exact ⟨hnone, hle⟩
    · rw [show (step st (Op.authorize d newId authCode now)).2 = _ from hset]
      have hcnt := countWithKey_setKey_le k st.payments_db newId
        (mkAuthPayment d newId now (simulate_payment_gateway authCode d.amount (tokenOf d)))
      have hkey : (mkAuthPayment d newId now
          (simulate_payment_gateway authCode d.amount (tokenOf d))).idempotency_key =
          d.idempotency_key := rfl
      by_cases hdk : d.idempotency_key = some k
      · have h0 := hnone (keyHit_false_lookup st d k hmiss hdk hk)
        rw [hkey, hdk, if_pos rfl] at hcnt
        refine KeyInv_mk k _ _ ?_ ?_
        · intro hnone2
          exfalso
          rw [hdk] at hnone2
          simp only [registerKey] at hnone2
          rw [if_neg hk, lookup_setKey_self] at hnone2
          exact Option.noConfusion hnone2
        · omega
      · have hkne : (mkAuthPayment d newId now
            (simulate_payment_gateway authCode d.amount (tokenOf d))).idempotency_key ≠
            some k := by rw [hkey]; exact hdk
        rw [if_neg hkne] at hcnt
        refine KeyInv_mk k _ _ ?_ ?_
        · intro hnone2
          rw [lookup_registerKey_ne _ _ _ _ hdk] at hnone2
          have h0 := hnone hnone2
          omega
        · omega
  | capture pid now =>
    rcases capture_state_cases st pid now with hsame | ⟨p, hp, _, hset⟩
    · rw [show (step st (Op.capture pid now)).2 = st from hsame]
      exact ⟨hnone, hle⟩
    · rw [show (step st (Op.capture pid now)).2 = _ from hset]
      have hcs := countWithKey_setKey_same k st.payments_db pid p (capturedRecord p now) hp rfl
      refine KeyInv_mk k _ _ ?_ ?_
      · intro hnone2
        rw [hcs]
        exact hnone hnone2
      · rw [hcs]
        exact hle
  | void pid now =>
    rcases void_state_cases st pid now with hsame | ⟨p, hp, _, hset⟩
    · rw [show (step st (Op.void pid now)).2 = st from hsame]
      exact ⟨hnone, hle⟩
    · rw [show (step st (Op.void pid now)).2 = _ from hset]
      have hcs := countWithKey_setKey_same k st.payments_db pid p (voidedRecord p now) hp rfl
      refine KeyInv_mk k _ _ ?_ ?_
      · intro hnone2
        rw [hcs]
        exact hnone hnone2
      · rw [hcs]
        exact hle
  | refund pid ramount now =>
    rcases refund_state_cases st pid ramount now with hsame | ⟨p, hp, _, _, hset⟩
    · rw [show (step st (Op.refund pid ramount now)).2 = st from hsame]
      exact ⟨hnone, hle⟩
    · rw [show (step st (Op.refund pid ramount now)).2 = _ from hset]
      have hcs := countWithKey_setKey_same k st.payments_db pid p
        (refundedRecord p (refundAmt ramount (p.amount - p.refunded_amount)) now) hp rfl
      refine KeyInv_mk k _ _ ?_ ?_
      · intro hnone2
        rw [hcs]
        exact hnone hnone2
      · rw [hcs]
        exact hle

theorem keyInv_run (k : String) (hk : k ≠ "") (ops : List Op) (st : PaymentsState)
    (h : KeyInv k st) : KeyInv k (run st ops) := by
  induction ops generalizing st with
  | nil => exact h
  | cons op rest ih => exact ih (step st op).2 (keyInv_step k hk st op h)

theorem get_payment_of_lookup (st : PaymentsState) (pid : String) (p : Payment)
    (h : lookupKey st.payments_db pid = some p) : get_payment st pid = Except.ok p := by
  unfold get_payment
  split
  · next hn => rw [h] at hn; exact Option.noConfusion hn
  · next p0 hp0 =>
    rw [h] at hp0
    obtain rfl : p = p0 := Option.some.inj hp0
    rfl

theorem refund_reject_over (st : PaymentsState) (pid : String) (p : Payment) (a : ℚ)
    (now : Nat) (hp : lookupKey st.payments_db pid = some p)
    (hst : p.status = PaymentStatus.captured ∨ p.status = PaymentStatus.partially_refunded)
    (ha : 0 < a) (hover : p.amount - p.refunded_amount < a) :
    refund_payment st pid (some a) now =
      (Except.error (Err.http 400 "Refund amount exceeds remaining balance"), st) := by
  have hbad : badRefundAmount (some a) = false := by
    simp only [badRefundAmount, decide_eq_false_iff_not, not_le]
    exact ha
  unfold refund_payment
  rw [if_neg (show ¬ badRefundAmount (some a) = true by rw [hbad]; simp)]
  split
  · next hn => rw [hp] at hn; exact Option.noConfusion hn
  · next p0 hp0 =>
    rw [hp] at hp0
    obtain rfl : p = p0 := Option.some.inj hp0
    rw [if_pos hst,
      if_pos (show refundAmt (some a) (p.amount - p.refunded_amount) >
        p.amount - p.refunded_amount from hover)]

/-! ## The claims -/

/-- C1: for every payment record in the store, after every finite sequence of
authorize, capture, void and refund operations, `0 ≤ refunded_amount ≤ amount`
holds (invariant I2), and a refund whose amount exceeds the remaining balance
`amount - refunded_amount` is rejected with the InvalidRefundAmount error
(HTTP 400, "Refund amount exceeds remaining balance") and leaves the state
unchanged. -/
theorem c1_refunded_amount_bounds
    (ops : List Op) (st : PaymentsState) (pid : String) (p : Payment) (a : ℚ) (now : Nat)
    (hp : lookupKey st.payments_db pid = some p)
    (hst : p.status = PaymentStatus.captured ∨ p.status = PaymentStatus.partially_refunded)
    (ha : 0 < a) (hover : p.amount - p.refunded_amount < a) :
    InvI2 (run initState ops) ∧
    refund_payment st pid (some a) now =
      (Except.error (Err.http 400 "Refund amount exceeds remaining balance"), st) := by
  constructor
  · refine invI2_run ops initState ?_
    intro pid2 q hq
    simp [initState, lookupKey] at hq
  · exact refund_reject_over st pid p a now hp hst ha hover

/-- C2 (amended): for every non-empty idempotency key `k`, at most one stored
Payment ever carries `k`, and an authorize call that passes the pydantic gate
and finds `k` in the index returns the stored record for the indexed id and
changes nothing — for any generated id and auth code, so no gateway outcome
is consulted. The empty-string key is excluded: Python's truthiness check
treats it as no key at all. -/
theorem c2_idempotency_unique
    (ops : List Op) (k : String) (hk : k ≠ "")
    (st : PaymentsState) (d : PaymentCreate) (newId authCode : String) (now : Nat)
    (pid : String) (p : Payment)
    (hd : d.idempotency_key = some k) (hamt : ¬ d.amount ≤ 0)
    (hc : lookupKey st.idempotency_cache k = some pid)
    (hp : lookupKey st.payments_db pid = some p) :
    countWithKey k (run initState ops).payments_db ≤ 1 ∧
    authorize_payment st d newId authCode now = (Except.ok p, st) := by
  constructor
  · refine (keyInv_run k hk ops initState ⟨fun _ => rfl, ?_⟩).2
    show countWithKey k [] ≤ 1
    simp [countWithKey]
  · unfold authorize_payment
    rw [if_neg hamt]
    split
    · next heq => rw [hd] at heq; exact Option.noConfusion heq
    · next k0 heq =>
      rw [hd] at heq
      obtain rfl : k = k0 := Option.some.inj heq
      rw [if_neg hk]
      split
      · next hl => rw [hc] at hl; exact Option.noConfusion hl
      · next eid hl =>
        rw [hc] at hl
        obtain rfl : pid = eid := Option.some.inj hl
        split
        · next p0 hp0 =>
          rw [hp] at hp0
          obtain rfl : p = p0 := Option.some.inj hp0
          rfl
        · next hp0 => rw [hp] at hp0; exact Option.noConfusion hp0

/-- C3: a successful refund ends in status `refunded` exactly when the new
`refunded_amount` equals the original `amount` under exact rational equality,
and in `partially_refunded` exactly otherwise; `refunded_at` and `updated_at`
are set on every successful refund. -/
theorem c3_refund_exact_equality
    (st : PaymentsState) (pid : String) (ramount : Option ℚ) (now : Nat)
    (p2 : Payment) (st2 : PaymentsState)
    (h : refund_payment st pid ramount now = (Except.ok p2, st2)) :
    ∃ p, lookupKey st.payments_db pid = some p ∧
      (p2.status = PaymentStatus.refunded ↔ p2.refunded_amount = p.amount) ∧
      (p2.status = PaymentStatus.partially_refunded ↔ p2.refunded_amount ≠ p.amount) ∧
      p2.amount = p.amount ∧
      p2.refunded_at = some now ∧ p2.updated_at = now := by
  obtain ⟨p, hp, hst, hbad, hle, rfl, hst2⟩ := refund_ok_inv st pid ramount now p2 st2 h
  refine ⟨p, hp, ?_, ?_, rfl, rfl, rfl⟩
  · by_cases hge : p.refunded_amount + refundAmt ramount (p.amount - p.refunded_amount) ≥ p.amount
    · have heq : p.refunded_amount + refundAmt ramount (p.amount - p.refunded_amount) =
          p.amount := le_antisymm (by linarith) hge
      constructor
      · intro _
        exact heq
      · intro _
        show (if p.refunded_amount + refundAmt ramount (p.amount - p.refunded_amount) ≥ p.amount
              then PaymentStatus.refunded else PaymentStatus.partially_refunded) =
          PaymentStatus.refunded
        rw [if_pos hge]
    · constructor
      · intro hs
        exfalso
        have hps : (refundedRecord p (refundAmt ramount (p.amount - p.refunded_amount)) now).status =
            PaymentStatus.partially_refunded := by
          show (if p.refunded_amount + refundAmt ramount (p.amount - p.refunded_amount) ≥ p.amount
                then PaymentStatus.refunded else PaymentStatus.partially_refunded) =
            PaymentStatus.partially_refunded
          rw [if_neg hge]
        exact PaymentStatus.noConfusion (hs.symm.trans hps)
      · intro heq
        exact absurd (le_of_eq heq.symm) hge
  · by_cases hge : p.refunded_amount + refundAmt ramount (p.amount - p.refunded_amount) ≥ p.amount
    · have heq : p.refunded_amount + refundAmt ramount (p.amount - p.refunded_amount) =
          p.amount := le_antisymm (by linarith) hge
      constructor
      · intro hs
        exfalso
        have hps : (refundedRecord p (refundAmt ramount (p.amount - p.refunded_amount)) now).status =
            PaymentStatus.refunded := by
          show (if p.refunded_amount + refundAmt ramount (p.amount - p.refunded_amount) ≥ p.amount
                then PaymentStatus.refunded else PaymentStatus.partially_refunded) =
            PaymentStatus.refunded
          rw [if_pos hge]
        exact PaymentStatus.noConfusion (hs.symm.trans hps)
      · intro hne
        exact absurd heq hne
    · constructor
      · intro _
        exact fun heq => hge (le_of_eq heq.symm)
      · intro _
        show (if p.refunded_amount + refundAmt ramount (p.amount - p.refunded_amount) ≥ p.amount
              then PaymentStatus.refunded else PaymentStatus.partially_refunded) =
          PaymentStatus.partially_refunded
        rw [if_neg hge]

/-- C5 (amended): every authorize call that returns successfully and did not
hit the idempotency index returns a Payment in status `authorized`; a call
that hits the index instead returns the stored record verbatim, whatever its
status (a persisted declined record is returned successfully). -/
theorem c5_fresh_success_authorized
    (st : PaymentsState) (d : PaymentCreate) (newId authCode : String) (now : Nat)
    (p : Payment) (st2 : PaymentsState)
    (hmiss : keyHit st d = false)
    (h : authorize_payment st d newId authCode now = (Except.ok p, st2)) :
    p.status = PaymentStatus.authorized := by
  by_cases hamt : d.amount ≤ 0
  · exfalso
    unfold authorize_payment at h
    rw [if_pos hamt] at h
    simp at h
  rw [authorize_miss st d newId authCode now hmiss hamt] at h
  simp only [freshAuthorize] at h
  split at h
  · simp at h
  · split at h
    · next hg =>
      have h1 := congrArg Prod.fst h
      simp only at h1
      obtain rfl := Except.ok.inj h1
      show (if (simulate_payment_gateway authCode d.amount (tokenOf d)).1
            then PaymentStatus.authorized else PaymentStatus.declined) =
        PaymentStatus.authorized
      rw [if_pos hg]
    · simp at h

/-- C6: when the gateway declines an authorization, authorize persists a
Payment with status `declined`, the gateway's reason in `decline_reason` and
no `authorization_code`, surfaces the decline as an HTTP 402
(PaymentDeclined), and `get_payment` on the new id returns that record. -/
theorem c6_decline_persists_record
    (st : PaymentsState) (d : PaymentCreate) (newId authCode : String) (now : Nat)
    (hmiss : keyHit st d = false) (hamt : ¬ d.amount ≤ 0)
    (hcard : cardMissing d = false)
    (hfail : (simulate_payment_gateway authCode d.amount (tokenOf d)).1 = false) :
    ∃ r p st2,
      simulate_payment_gateway authCode d.amount (tokenOf d) = (false, none, some r) ∧
      authorize_payment st d newId authCode now =
        (Except.error (Err.http 402 ("Payment declined: " ++ r)), st2) ∧
      lookupKey st2.payments_db newId = some p ∧
      p.status = PaymentStatus.declined ∧
      p.decline_reason = some r ∧
      p.authorization_code = none ∧
      get_payment st2 newId = Except.ok p := by
  obtain ⟨r, hg⟩ := gateway_fail_shape authCode d.amount (tokenOf d) hfail
  refine ⟨r, mkAuthPayment d newId now (false, none, some r),
    ⟨setKey st.payments_db newId (mkAuthPayment d newId now (false, none, some r)),
     registerKey st.idempotency_cache d.idempotency_key newId⟩,
    hg, ?_, ?_, rfl, rfl, rfl, ?_⟩
  · rw [authorize_miss st d newId authCode now hmiss hamt]
    exact fresh_fail_shape st d newId authCode now r hcard hg
  · exact lookup_setKey_self _ _ _
  · exact get_payment_of_lookup _ _ _ (lookup_setKey_self _ _ _)

/-- C7: capture fails with 404 NotFound when the id is unknown; fails with an
InvalidStateTransition error whose message carries the current status whenever
the record is not `authorized` (in particular a second capture on an already
captured record always fails and leaves the record, hence `captured_at`,
untouched); and otherwise marks the record captured, setting `captured_at`
and `updated_at`. -/
theorem c7_capture_transitions
    (stA : PaymentsState) (pidA : String) (nowA : Nat)
    (hA : lookupKey stA.payments_db pidA = none)
    (stB : PaymentsState) (pidB : String) (pB : Payment) (nowB : Nat)
    (hB : lookupKey stB.payments_db pidB = some pB)
    (hB2 : pB.status ≠ PaymentStatus.authorized)
    (stC : PaymentsState) (pidC : String) (pC : Payment) (nowC nowC2 : Nat)
    (hC : lookupKey stC.payments_db pidC = some pC)
    (hC2 : pC.status = PaymentStatus.authorized) :
    capture_payment stA pidA nowA = (Except.error (Err.http 404 "Payment not found"), stA) ∧
    (capture_payment stB pidB nowB =
        (Except.error (Err.http 400
          ("Cannot capture payment in " ++ statusStr pB.status ++ " status")), stB) ∧
      strContainsSub ("Cannot capture payment in " ++ statusStr pB.status ++ " status")
        (statusStr pB.status) = true) ∧
    (∃ p2 st2, capture_payment stC pidC nowC = (Except.ok p2, st2) ∧
      p2.status = PaymentStatus.captured ∧ p2.captured_at = some nowC ∧
      p2.updated_at = nowC ∧
      capture_payment st2 pidC nowC2 =
        (Except.error (Err.http 400
          ("Cannot capture payment in " ++ statusStr PaymentStatus.captured ++ " status")), st2) ∧
      lookupKey st2.payments_db pidC = some p2) := by
  refine ⟨?_, ⟨?_, ?_⟩, ?_⟩
  · unfold capture_payment
    split
    · rfl
    · next p0 hp0 => rw [hA] at hp0; exact Option.noConfusion hp0
  · unfold capture_payment
    split
    · next hn => rw [hB] at hn; exact Option.noConfusion hn
    · next p0 hp0 =>
      rw [hB] at hp0
      obtain rfl : pB = p0 := Option.some.inj hp0
      rw [if_neg hB2]
  · cases hss : pB.status <;> decide
  · refine ⟨capturedRecord pC nowC,
      ⟨setKey stC.payments_db pidC (capturedRecord pC nowC), stC.idempotency_cache⟩,
      ?_, rfl, rfl, rfl, ?_, ?_⟩
    · unfold capture_payment
      split
      · next hn => rw [hC] at hn; exact Option.noConfusion hn
      · next p0 hp0 =>
        rw [hC] at hp0
        obtain rfl : pC = p0 := Option.some.inj hp0
        rw [if_pos hC2]
    · have hself := lookup_setKey_self stC.payments_db pidC (capturedRecord pC nowC)
      unfold capture_payment
      split
      · next hn =>
        rw [show lookupKey (setKey stC.payments_db pidC (capturedRecord pC nowC)) pidC =
          some (capturedRecord pC nowC) from hself] at hn
        exact Option.noConfusion hn
      · next p0 hp0 =>
        rw [show lookupKey (setKey stC.payments_db pidC (capturedRecord pC nowC)) pidC =
          some (capturedRecord pC nowC) from hself] at hp0
        obtain rfl := Option.some.inj hp0
        rw [if_neg (show ¬ (capturedRecord pC nowC).status = PaymentStatus.authorized by
          simp [capturedRecord])]
        rfl
    · exact lookup_setKey_self _ _ _

/-- C8: an authorize call with a card-class payment method, no card details,
and no idempotency hit fails with a ValidationError (the pydantic 422 when the
amount is not positive, else the 400 "Card details required for card
payments") and mutates nothing. -/
theorem c8_card_details_required
    (st : PaymentsState) (d : PaymentCreate) (newId authCode : String) (now : Nat)
    (hmiss : keyHit st d = false)
    (hm : d.payment_method = PaymentMethod.credit_card ∨
          d.payment_method = PaymentMethod.debit_card)
    (hcd : d.card_details = none) :
    (authorize_payment st d newId authCode now).2 = st ∧
    (authorize_payment st d newId authCode now).1 =
      (if d.amount ≤ 0 then Except.error validationFailure
       else Except.error (Err.http 400 "Card details required for card payments")) := by
  have hcm : cardMissing d = true := by
    rcases hm with h | h <;> simp [cardMissing, h, hcd]
  by_cases hamt : d.amount ≤ 0
  · have heq : authorize_payment st d newId authCode now = (Except.error validationFailure, st) := by
      unfold authorize_payment
      rw [if_pos hamt]
    rw [heq]
    exact ⟨rfl, by rw [if_pos hamt]⟩
  · have heq : authorize_payment st d newId authCode now =
        (Except.error (Err.http 400 "Card details required for card payments"), st) := by
      rw [authorize_miss st d newId authCode now hmiss hamt]
      unfold freshAuthorize
      rw [if_pos hcm]
    rw [heq]
    exact ⟨rfl, by rw [if_neg hamt]⟩

/-- C9: capture, void and refund only ever rewrite the targeted record's
status, refunded_amount and timestamp fields: the targeted record keeps its
id, foreign references, amount, currency, method, instrument reference,
gateway outcome fields, idempotency key and creation time, every other record
is untouched, and so is the idempotency index. -/
theorem c9_frame_condition (st : PaymentsState) (pid : String) (ramount : Option ℚ)
    (now : Nat) :
    frameOk st pid (capture_payment st pid now) ∧
    frameOk st pid (void_payment st pid now) ∧
    frameOk st pid (refund_payment st pid ramount now) := by
  refine ⟨?_, ?_, ?_⟩
  · rcases capture_state_cases st pid now with hsame | ⟨p, hp, _, hset⟩
    · exact frameOk_of_same st pid _ hsame
    · exact frameOk_of_set st pid p _ _ hp (by simp [immutableFieldsEq, capturedRecord]) hset
  · rcases void_state_cases st pid now with hsame | ⟨p, hp, _, hset⟩
    · exact frameOk_of_same st pid _ hsame
    · exact frameOk_of_set st pid p _ _ hp (by simp [immutableFieldsEq, voidedRecord]) hset
  · rcases refund_state_cases st pid ramount now with hsame | ⟨p, hp, _, _, hset⟩
    · exact frameOk_of_same st pid _ hsame
    · exact frameOk_of_set st pid p _ _ hp
        (by simp [immutableFieldsEq, refundedRecord]) hset

/-- C10 (amended): an authorize call that passes validation, misses the
idempotency index and carries an amount above 10000 is declined by the
simulated gateway and persisted as a declined Payment with a 402 surfaced;
the reason is "Amount exceeds limit" when the instrument token triggers
neither the DECLINE nor the INSUFFICIENT rule, which are checked first. -/
theorem c10_amount_limit_declines
    (st : PaymentsState) (d : PaymentCreate) (newId authCode : String) (now : Nat)
    (hmiss : keyHit st d = false) (hcard : cardMissing d = false)
    (hbig : 10000 < d.amount)
    (hd1 : strContainsSub (strUpper (tokenOf d)) "DECLINE" = false)
    (hd2 : strContainsSub (strUpper (tokenOf d)) "INSUFFICIENT" = false) :
    ∃ st2,
      authorize_payment st d newId authCode now =
        (Except.error (Err.http 402 ("Payment declined: " ++ "Amount exceeds limit")), st2) ∧
      lookupKey st2.payments_db newId =
        some (mkAuthPayment d newId now (false, none, some "Amount exceeds limit")) ∧
      (mkAuthPayment d newId now (false, none, some "Amount exceeds limit")).status =
        PaymentStatus.declined := by
  have hamt : ¬ d.amount ≤ 0 := not_le.2 (lt_trans (by norm_num) hbig)
  have hg : simulate_payment_gateway authCode d.amount (tokenOf d) =
      (false, none, some "Amount exceeds limit") := by
    unfold simulate_payment_gateway
    rw [if_neg (show ¬ strContainsSub (strUpper (tokenOf d)) "DECLINE" = true by
          rw [hd1]; simp),
        if_neg (show ¬ strContainsSub (strUpper (tokenOf d)) "INSUFFICIENT" = true by
          rw [hd2]; simp),
        if_pos hbig]
  refine ⟨⟨setKey st.payments_db newId
      (mkAuthPayment d newId now (false, none, some "Amount exceeds limit")),
    registerKey st.idempotency_cache d.idempotency_key newId⟩, ?_, ?_, rfl⟩
  · rw [authorize_miss st d newId authCode now hmiss hamt]
    exact fresh_fail_shape st d newId authCode now "Amount exceeds limit" hcard hg
  · exact lookup_setKey_self _ _ _

/-- C2 counterexample: with the empty string as idempotency key, two
authorize calls each create a record carrying that key — the dedup contract
fails for `k = ""` because Python's truthiness check skips empty keys. -/
theorem c2_counterexample_empty_key :
    countWithKey ""
      (run initState
        [Op.authorize (walletCreate 5 (some "")) "PAY-A" "AC1" 0,
         Op.authorize (walletCreate 5 (some "")) "PAY-B" "AC2" 1]).payments_db = 2 ∧
    ¬ countWithKey ""
      (run initState
        [Op.authorize (walletCreate 5 (some "")) "PAY-A" "AC1" 0,
         Op.authorize (walletCreate 5 (some "")) "PAY-B" "AC2" 1]).payments_db ≤ 1 := by
  constructor
  · decide
  · decide

/-- C4 counterexample: after authorize(100), capture, refund(30), refund(70),
a refund(1) is rejected by the status precondition with the
InvalidStateTransition message, not with the InvalidRefundAmount message the
claim names. -/
theorem c4_counterexample_error_kind :
    (refund_payment c4State "PAY-1" (some 1) 4).1 =
      Except.error (Err.http 400 "Cannot refund payment in refunded status") ∧
    (refund_payment c4State "PAY-1" (some 1) 4).1 ≠
      Except.error (Err.http 400 "Refund amount exceeds remaining balance") := by
  have h : (refund_payment c4State "PAY-1" (some 1) 4).1 =
      Except.error (Err.http 400 "Cannot refund payment in refunded status") := by
    norm_num [c4State, run, step, refund_payment, capture_payment, authorize_payment,
      freshAuthorize, simulate_payment_gateway, strContainsSub, strUpper, charsContain,
      charsHavePre, mkAuthPayment, tokenOf, cardMissing, registerKey, badRefundAmount,
      refundAmt, refundedRecord, capturedRecord, lookupKey, setKey, initState,
      walletCreate, statusStr, validationFailure]
    decide
  exact ⟨h, by rw [h]; decide⟩

/-- C4 (amended): given amount 100 in status captured, refund(30) yields
partially_refunded with refunded_amount 30, refund(70) then yields status
refunded with refunded_amount 100, and a subsequent refund(1) on the fully
refunded payment fails with InvalidStateTransition ("Cannot refund payment in
refunded status") — the status precondition rejects it before the amount
check — leaving the store unchanged. -/
theorem c4_repeated_partial_refunds :
    (∃ q, lookupKey c4Mid.payments_db "PAY-1" = some q ∧
      q.status = PaymentStatus.partially_refunded ∧ q.refunded_amount = 30) ∧
    (∃ p, lookupKey c4State.payments_db "PAY-1" = some p ∧
      p.status = PaymentStatus.refunded ∧ p.refunded_amount = 100) ∧
    refund_payment c4State "PAY-1" (some 1) 4 =
      (Except.error (Err.http 400 "Cannot refund payment in refunded status"), c4State) := by
  refine ⟨?_, ?_, ?_⟩ <;>
    (norm_num [c4Mid, c4State, run, step, refund_payment, capture_payment, authorize_payment,
      freshAuthorize, simulate_payment_gateway, strContainsSub, strUpper, charsContain,
      charsHavePre, mkAuthPayment, tokenOf, cardMissing, registerKey, badRefundAmount,
      refundAmt, refundedRecord, capturedRecord, lookupKey, setKey, initState,
      walletCreate, statusStr, validationFailure]) <;>
    decide

/-- C5 counterexample: replaying a declined authorization through its
idempotency key returns the persisted record successfully, and that record's
status is `declined`, not `authorized`. -/
theorem c5_counterexample_replay_declined :
    (authorize_payment c5State (declineCreate 50 (some "K1")) "PAY-E" "AC2" 1).1 =
      Except.ok (mkAuthPayment (declineCreate 50 (some "K1")) "PAY-D" 0
        (false, none, some "Card declined by issuer")) ∧
    (mkAuthPayment (declineCreate 50 (some "K1")) "PAY-D" 0
      (false, none, some "Card declined by issuer")).status = PaymentStatus.declined ∧
    ¬ (mkAuthPayment (declineCreate 50 (some "K1")) "PAY-D" 0
      (false, none, some "Card declined by issuer")).status = PaymentStatus.authorized := by
  refine ⟨by decide, by decide, by decide⟩

/-- C10 counterexample: with amount 20000 and the DECLINE-TEST instrument the
gateway still declines, but with reason "Card declined by issuer" — the token
rules run before the amount-limit rule, so "Amount exceeds limit" is not the
reason "regardless of the instrument supplied". -/
theorem c10_counterexample_decline_precedence :
    (10000 : ℚ) < (declineCreate 20000 none).amount ∧
    simulate_payment_gateway "AC" (declineCreate 20000 none).amount
      (tokenOf (declineCreate 20000 none)) = (false, none, some "Card declined by issuer") ∧
    "Card declined by issuer" ≠ "Amount exceeds limit" ∧
    (authorize_payment initState (declineCreate 20000 none) "PAY-F" "AC" 0).1 =
      Except.error (Err.http 402 "Payment declined: Card declined by issuer") ∧
    lookupKey (authorize_payment initState (declineCreate 20000 none) "PAY-F" "AC" 0).2.payments_db
        "PAY-F" =
      some (mkAuthPayment (declineCreate 20000 none) "PAY-F" 0
        (false, none, some "Card declined by issuer")) := by
  refine ⟨by decide, by decide, by decide, by decide, by decide⟩

/-! ## Witnesses -/

theorem c1_witness :
    lookupKey sampleState.payments_db "PAY-1" = some capturedSample ∧
    (capturedSample.status = PaymentStatus.captured ∨
     capturedSample.status = PaymentStatus.partially_refunded) ∧
    (0 : ℚ) < 200 ∧
    capturedSample.amount - capturedSample.refunded_amount < 200 ∧
    (InvI2 (run initState []) ∧
     refund_payment sampleState "PAY-1" (some 200) 9 =
       (Except.error (Err.http 400 "Refund amount exceeds remaining balance"), sampleState)) :=
  ⟨rfl, Or.inl rfl, by decide, by norm_num [capturedSample],
   c1_refunded_amount_bounds [] sampleState "PAY-1" capturedSample 200 9 rfl (Or.inl rfl)
     (by decide) (by norm_num [capturedSample])⟩

theorem c2_witness :
    ("K1" : String) ≠ "" ∧
    (walletCreate 5 (some "K1")).idempotency_key = some "K1" ∧
    ¬ (walletCreate 5 (some "K1")).amount ≤ 0 ∧
    lookupKey sampleState.idempotency_cache "K1" = some "PAY-1" ∧
    lookupKey sampleState.payments_db "PAY-1" = some capturedSample ∧
    (countWithKey "K1" (run initState []).payments_db ≤ 1 ∧
     authorize_payment sampleState (walletCreate 5 (some "K1")) "PAY-N" "AC" 4 =
       (Except.ok capturedSample, sampleState)) :=
  ⟨by decide, rfl, by decide, rfl, rfl,
   c2_idempotency_unique [] "K1" (by decide) sampleState (walletCreate 5 (some "K1"))
     "PAY-N" "AC" 4 "PAY-1" capturedSample rfl (by decide) rfl rfl⟩

theorem c3_witness :
    refund_payment sampleState "PAY-1" (some 30) 7 = (Except.ok c3Refunded, c3After) ∧
    (∃ p, lookupKey sampleState.payments_db "PAY-1" = some p ∧
      (c3Refunded.status = PaymentStatus.refunded ↔ c3Refunded.refunded_amount = p.amount) ∧
      (c3Refunded.status = PaymentStatus.partially_refunded ↔
        c3Refunded.refunded_amount ≠ p.amount) ∧
      c3Refunded.amount = p.amount ∧
      c3Refunded.refunded_at = some 7 ∧ c3Refunded.updated_at = 7) := by
  have h : refund_payment sampleState "PAY-1" (some 30) 7 = (Except.ok c3Refunded, c3After) := by
    norm_num [refund_payment, sampleState, capturedSample, c3Refunded, c3After, lookupKey,
      setKey, badRefundAmount, refundAmt, refundedRecord]
  exact ⟨h, c3_refund_exact_equality sampleState "PAY-1" (some 30) 7 c3Refunded c3After h⟩

theorem c5_witness :
    keyHit initState (walletCreate 50 none) = false ∧
    authorize_payment initState (walletCreate 50 none) "PAY-W" "AC" 3 =
      (Except.ok c5Ok, c5OkState) ∧
    c5Ok.status = PaymentStatus.authorized :=
  ⟨rfl, by decide,
   c5_fresh_success_authorized initState (walletCreate 50 none) "PAY-W" "AC" 3
     c5Ok c5OkState rfl (by decide)⟩

theorem c6_witness :
    keyHit initState (declineCreate 50 none) = false ∧
    ¬ (declineCreate 50 none).amount ≤ 0 ∧
    cardMissing (declineCreate 50 none) = false ∧
    (simulate_payment_gateway "AC" (declineCreate 50 none).amount
      (tokenOf (declineCreate 50 none))).1 = false ∧
    (∃ r p st2,
      simulate_payment_gateway "AC" (declineCreate 50 none).amount
        (tokenOf (declineCreate 50 none)) = (false, none, some r) ∧
      authorize_payment initState (declineCreate 50 none) "PAY-D2" "AC" 5 =
        (Except.error (Err.http 402 ("Payment declined: " ++ r)), st2) ∧
      lookupKey st2.payments_db "PAY-D2" = some p ∧
      p.status = PaymentStatus.declined ∧
      p.decline_reason = some r ∧
      p.authorization_code = none ∧
      get_payment st2 "PAY-D2" = Except.ok p) :=
  ⟨rfl, by decide, rfl, by decide,
   c6_decline_persists_record initState (declineCreate 50 none) "PAY-D2" "AC" 5
     rfl (by decide) rfl (by decide)⟩

theorem c7_witness :
    lookupKey initState.payments_db "PAY-X" = none ∧
    lookupKey sampleState.payments_db "PAY-1" = some capturedSample ∧
    capturedSample.status ≠ PaymentStatus.authorized ∧
    lookupKey sampleState.payments_db "PAY-2" = some authorizedSample ∧
    authorizedSample.status = PaymentStatus.authorized ∧
    (capture_payment initState "PAY-X" 1 =
        (Except.error (Err.http 404 "Payment not found"), initState) ∧
     (capture_payment sampleState "PAY-1" 2 =
        (Except.error (Err.http 400
          ("Cannot capture payment in " ++ statusStr capturedSample.status ++ " status")),
         sampleState) ∧
      strContainsSub
        ("Cannot capture payment in " ++ statusStr capturedSample.status ++ " status")
        (statusStr capturedSample.status) = true) ∧
     (∃ p2 st2, capture_payment sampleState "PAY-2" 3 = (Except.ok p2, st2) ∧
       p2.status = PaymentStatus.captured ∧ p2.captured_at = some 3 ∧
       p2.updated_at = 3 ∧
       capture_payment st2 "PAY-2" 4 =
         (Except.error (Err.http 400
           ("Cannot capture payment in " ++ statusStr PaymentStatus.captured ++ " status")),
          st2) ∧
       lookupKey st2.payments_db "PAY-2" = some p2)) :=
  ⟨rfl, rfl, by decide, rfl, rfl,
   c7_capture_transitions initState "PAY-X" 1 rfl sampleState "PAY-1" capturedSample 2
     rfl (by decide) sampleState "PAY-2" authorizedSample 3 4 rfl rfl⟩

theorem c8_witness :
    keyHit initState cardNoDetails = false ∧
    (cardNoDetails.payment_method = PaymentMethod.credit_card ∨
     cardNoDetails.payment_method = PaymentMethod.debit_card) ∧
    cardNoDetails.card_details = none ∧
    ((authorize_payment initState cardNoDetails "PAY-C" "AC" 6).2 = initState ∧
     (authorize_payment initState cardNoDetails "PAY-C" "AC" 6).1 =
       (if cardNoDetails.amount ≤ 0 then Except.error validationFailure
        else Except.error (Err.http 400 "Card details required for card payments"))) :=
  ⟨rfl, Or.inl rfl, rfl,
   c8_card_details_required initState cardNoDetails "PAY-C" "AC" 6 rfl (Or.inl rfl) rfl⟩

theorem c10_witness :
    keyHit initState bigCleanCreate = false ∧
    cardMissing bigCleanCreate = false ∧
    (10000 : ℚ) < bigCleanCreate.amount ∧
    strContainsSub (strUpper (tokenOf bigCleanCreate)) "DECLINE" = false ∧
    strContainsSub (strUpper (tokenOf bigCleanCreate)) "INSUFFICIENT" = false ∧
    (∃ st2,
      authorize_payment initState bigCleanCreate "PAY-G" "AC" 8 =
        (Except.error (Err.http 402 ("Payment declined: " ++ "Amount exceeds limit")), st2) ∧
      lookupKey st2.payments_db "PAY-G" =
        some (mkAuthPayment bigCleanCreate "PAY-G" 8 (false, none, some "Amount exceeds limit")) ∧
      (mkAuthPayment bigCleanCreate "PAY-G" 8 (false, none, some "Amount exceeds limit")).status =
        PaymentStatus.declined) :=
  ⟨rfl, rfl, by decide, by decide, by decide,
   c10_amount_limit_declines initState bigCleanCreate "PAY-G" "AC" 8 rfl rfl
     (by decide) (by decide) (by decide)⟩

end Contoso
